import Mathlib

/-!
Shallow embedding of `src/backend/base/langflow/components/epam/dial_language_model.py`
(class `DialLanguageModelComponent`).

The component has four operations:
- `fetch_models` (async HTTP listing of DIAL deployments, fallback-safe);
- `refresh_models` (runs the fetch, updates the dropdown options and value and
  the class-level cache);
- `update_build_config` (the host-framework refresh hook);
- `build_model` (constructs an `AzureChatOpenAI` handle).

The network and the external constructor are modelled as oracles: a value of
`HttpOutcome` stands for everything the single GET can do (raise at any step,
or deliver a status and a body), and `build_model` takes the constructor
outcome as a function argument.  Python attribute absence (`hasattr` false) is
an `Option` that is `none`; Python string truthiness is `truthyOpt`.
-/

namespace DialLM

/-- `FALLBACK_MODELS` from the source (line 24). -/
def FALLBACK_MODELS : List String := ["gpt-4o"]

/-- One element of the `data` array of the response body.  `id := none` models
an entry whose object has no id key. -/
structure ModelEntry where
  id : Option String
deriving DecidableEq, Repr

/-- The parsed JSON body of a response.  `malformed` models a body on which
`response.json()` or the subsequent dictionary access raises (the exception is
caught by the surrounding handler); `obj none` models a JSON object with no
`data` key, so that `data.get("data", [])` yields the empty list. -/
inductive FetchBody where
  | malformed : FetchBody
  | obj : Option (List ModelEntry) → FetchBody
deriving DecidableEq, Repr

/-- Everything the awaited GET can do: raise (any exception at any step of the
session or request), or deliver a status code and a body. -/
inductive HttpOutcome where
  | exn : HttpOutcome
  | response : Nat → FetchBody → HttpOutcome
deriving DecidableEq, Repr

/-- Outcome of `asyncio.run(self.fetch_models())` as seen by `refresh_models`:
either `asyncio.run` itself raised around the coroutine, or the coroutine ran
against an `HttpOutcome`. -/
inductive RunOutcome where
  | runExn : RunOutcome
  | ran : HttpOutcome → RunOutcome
deriving DecidableEq, Repr

/-- The one outbound request of `fetch_models` (lines 173-183). -/
structure HttpRequest where
  method : String
  url : String
  headers : List (String × String)
  timeoutSecs : Nat
deriving DecidableEq, Repr

/-- Python `rstrip` with the slash argument: remove every trailing slash. -/
def rstripSlash (s : String) : String :=
  String.mk (List.reverse (List.dropWhile (fun c => c = '/') s.data.reverse))

/-- The request `fetch_models` builds from host, key and api version. -/
def mkModelsRequest (host key version : String) : HttpRequest :=
  { method := "GET"
  , url := rstripSlash host ++ "/openai/deployments?api-version=" ++ version
  , headers := [("Content-Type", "application/json"), ("Api-Key", key)]
  , timeoutSecs := 10 }

/-- The component state that the listing path reads and writes: the credential
attributes (`none` = attribute absent), the api version, the `model_name`
attribute, the dropdown input options and value, and the class-level cache
`_available_models` / `_models_fetched`. -/
structure CompState where
  dial_api_host : Option String
  dial_api_key : Option String
  api_version : String
  model_name : Option String
  input_options : List String
  input_value : Option String
  available_models : List String
  models_fetched : Bool
deriving DecidableEq, Repr

/-- Python truthiness of an optional string attribute:
`hasattr(self, a) and self.a` - absent and empty are both falsy. -/
def truthyOpt : Option String → Bool
  | none => false
  | some s => decide (s ≠ "")

/-- The comprehension of line 190:
`[model.get("id") for model in data.get("data", []) if model.get("id")]`.
An entry contributes its id exactly when the id is present and truthy, that
is, a non-empty string. -/
def extractIds (entries : List ModelEntry) : List String :=
  entries.filterMap fun e =>
    match e.id with
    | none => none
    | some s => if s = "" then none else some s

/-- `fetch_models` (lines 167-203).  Returns the list the coroutine returns,
the state after its class-cache writes, and the request it built
(`none` when the credential guard returned before any network activity). -/
def fetch_models (st : CompState) (out : HttpOutcome) :
    List String × CompState × Option HttpRequest :=
  if !truthyOpt st.dial_api_host || !truthyOpt st.dial_api_key then
    (FALLBACK_MODELS, st, none)
  else
    let req := mkModelsRequest (st.dial_api_host.getD "") (st.dial_api_key.getD "")
      st.api_version
    match out with
    | HttpOutcome.exn => (FALLBACK_MODELS, st, some req)
    | HttpOutcome.response status body =>
      if status ≠ 200 then (FALLBACK_MODELS, st, some req)
      else
        match body with
        | FetchBody.malformed => (FALLBACK_MODELS, st, some req)
        | FetchBody.obj data =>
          match extractIds (data.getD []) with
          | [] => (FALLBACK_MODELS, st, some req)
          | m :: ms =>
            (m :: ms,
             { st with available_models := m :: ms, models_fetched := true },
             some req)

/-- Line 151: `not hasattr(self, "model_name") or self.model_name not in models`. -/
def selAbsent : Option String → List String → Bool
  | none, _ => true
  | some m, models => !(models.contains m)

/-- `refresh_models` (lines 140-165).  On `runExn` the except clause returns
the fallback with no state change.  Otherwise the dropdown options become the
fetched list; when the current selection is absent the dropdown value and
`self.model_name` become `models[0]` (were `models` empty this indexing would
raise and the except clause would return the fallback - the options write
already made persists); finally the class cache is overwritten with `models`
and `_models_fetched` is set to true. -/
def refresh_models (st : CompState) (run : RunOutcome) : List String × CompState :=
  match run with
  | RunOutcome.runExn => (FALLBACK_MODELS, st)
  | RunOutcome.ran out =>
    let r := fetch_models st out
    let models := r.1
    let st1 := r.2.1
    let stOpts := { st1 with input_options := models }
    if selAbsent st1.model_name models then
      match models with
      | [] => (FALLBACK_MODELS, stOpts)
      | m0 :: _ =>
        (models,
         { stOpts with
             input_value := some m0
           , model_name := some m0
           , available_models := models
           , models_fetched := true })
    else
      (models,
       { stOpts with available_models := models, models_fetched := true })

/-- The `model_name` entry of the build configuration dictionary. -/
structure ModelNameField where
  options : List String
  value : Option String
deriving DecidableEq, Repr

/-- `update_build_config` (lines 121-138).  For a triggering field it runs
`refresh_models` and rewrites the `model_name` entry; were the returned list
empty, the `models[0]` indexing would raise and the except clause would leave
the build configuration unchanged. -/
def update_build_config (st : CompState) (bc : ModelNameField)
    (field_name : String) (run : RunOutcome) : ModelNameField × CompState :=
  if field_name = "dial_api_host" ∨ field_name = "dial_api_key" ∨
      field_name = "model_name" then
    let r := refresh_models st run
    let models := r.1
    let st1 := r.2
    match models with
    | [] => (bc, st1)
    | m0 :: _ =>
      let v :=
        match st1.model_name with
        | none => m0
        | some m => if models.contains m then m else m0
      ({ options := models, value := some v }, st1)
  else
    (bc, st)

/-- The configuration attributes `build_model` reads (lines 97-103).
Only `stream` is guarded by `hasattr` in the source, hence optional here. -/
structure BuildConfig where
  dial_api_host : String
  model_name : String
  dial_api_key : String
  temperature : Float
  stream : Option Bool
  max_tokens : Int
  api_version : String

/-- The keyword arguments handed to `AzureChatOpenAI` (lines 106-114); the
successful handle records exactly these. -/
structure AzureParams where
  azure_endpoint : String
  azure_deployment : String
  api_version : String
  api_key : String
  temperature : Float
  streaming : Bool
  max_tokens : Option Int

/-- Outcome of the external `AzureChatOpenAI` constructor: success, or an
exception whose message is `msg`. -/
inductive CtorResult where
  | ok : CtorResult
  | err : String → CtorResult

/-- The argument record of lines 106-113: `stream` defaults to false when the
attribute is absent, and `max_tokens or None` maps `0` to `none`. -/
def mkAzureParams (cfg : BuildConfig) : AzureParams :=
  { azure_endpoint := cfg.dial_api_host
  , azure_deployment := cfg.model_name
  , api_version := cfg.api_version
  , api_key := cfg.dial_api_key
  , temperature := cfg.temperature
  , streaming := cfg.stream.getD false
  , max_tokens := if cfg.max_tokens = 0 then none else some cfg.max_tokens }

/-- `build_model` (lines 95-119): call the constructor; wrap any constructor
exception in one `ValueError` whose message appends the original message. -/
def build_model (cfg : BuildConfig) (ctor : AzureParams → CtorResult) :
    Except String AzureParams :=
  match ctor (mkAzureParams cfg) with
  | CtorResult.ok => Except.ok (mkAzureParams cfg)
  | CtorResult.err msg =>
    Except.error ("Could not initialize DIAL API client: " ++ msg)

/-- Every failure mode of the listing path, following the branch structure of
`fetch_models` and `refresh_models`: `asyncio.run` raising, the HTTP call
raising, missing or empty credentials, a non-200 status, a malformed body, or
an empty extracted id list. -/
def listingFailed (st : CompState) (run : RunOutcome) : Bool :=
  match run with
  | RunOutcome.runExn => true
  | RunOutcome.ran HttpOutcome.exn => true
  | RunOutcome.ran (HttpOutcome.response status body) =>
    !truthyOpt st.dial_api_host || !truthyOpt st.dial_api_key ||
    (if status ≠ 200 then true
     else
       match body with
       | FetchBody.malformed => true
       | FetchBody.obj data => (extractIds (data.getD [])).isEmpty)

/-- The extraction as the spec words it after amendment: the id of every entry
whose id is present and non-empty, in source order. -/
def specIds (entries : List ModelEntry) : List String :=
  (entries.filterMap ModelEntry.id).filter (fun s => decide (s ≠ ""))

/-- A state whose host attribute is absent (credentials incomplete). -/
def stC2 : CompState :=
  { dial_api_host := none
  , dial_api_key := some "secret"
  , api_version := "2024-02-01"
  , model_name := some "gpt-4o"
  , input_options := FALLBACK_MODELS
  , input_value := some "gpt-4o"
  , available_models := []
  , models_fetched := false }

/-- A fully credentialed state used for concrete listing runs. -/
def stC3 : CompState :=
  { dial_api_host := some "https://dial.example.com"
  , dial_api_key := some "secret"
  , api_version := "2024-02-01"
  , model_name := some "gpt-4o"
  , input_options := FALLBACK_MODELS
  , input_value := some "gpt-4o"
  , available_models := []
  , models_fetched := false }

/-- A credentialed state remembering a previously fetched list. -/
def stC4 : CompState :=
  { dial_api_host := some "https://dial.example.com"
  , dial_api_key := some "secret"
  , api_version := "2024-02-01"
  , model_name := some "claude-3"
  , input_options := ["claude-3"]
  , input_value := some "claude-3"
  , available_models := ["claude-3"]
  , models_fetched := true }

/-- A fully credentialed state used for the non-200 witness. -/
def stC5 : CompState :=
  { dial_api_host := some "https://dial.example.com"
  , dial_api_key := some "secret"
  , api_version := "2024-02-01"
  , model_name := some "gpt-4o"
  , input_options := FALLBACK_MODELS
  , input_value := some "gpt-4o"
  , available_models := []
  , models_fetched := false }

/-- A credentialed state whose host carries a trailing slash. -/
def stC9 : CompState :=
  { dial_api_host := some "https://dial.example.com/"
  , dial_api_key := some "secret"
  , api_version := "2024-02-01"
  , model_name := some "gpt-4o"
  , input_options := FALLBACK_MODELS
  , input_value := some "gpt-4o"
  , available_models := []
  , models_fetched := false }

/-- A concrete valid build configuration. -/
def cfgC7 : BuildConfig :=
  { dial_api_host := "https://dial.example.com"
  , model_name := "gpt-4o"
  , dial_api_key := "secret"
  , temperature := 0.7
  , stream := some true
  , max_tokens := 0
  , api_version := "2024-02-01" }

/-- A constructor oracle that always succeeds. -/
def ctorOkC7 : AzureParams → CtorResult := fun _ => CtorResult.ok

/-- `fetch_models` never returns the empty list: every failure branch returns
the (non-empty) fallback, and the success branch fires only on a non-empty
extraction. -/
theorem fetch_fst_ne_nil (st : CompState) (out : HttpOutcome) :
    (fetch_models st out).1 ≠ [] := by
  unfold fetch_models
  split
  · simp [FALLBACK_MODELS]
  · rcases out with _ | ⟨status, body⟩
    · simp [FALLBACK_MODELS]
    · dsimp only
      split
      · simp [FALLBACK_MODELS]
      · rcases body with _ | data
        · simp [FALLBACK_MODELS]
        · dsimp only
          split
          · simp [FALLBACK_MODELS]
          · simp

/-- `fetch_models` never writes the `model_name` attribute. -/
theorem fetch_model_name_eq (st : CompState) (out : HttpOutcome) :
    (fetch_models st out).2.1.model_name = st.model_name := by
  unfold fetch_models
  split
  · rfl
  · rcases out with _ | ⟨status, body⟩
    · rfl
    · dsimp only
      split
      · rfl
      · rcases body with _ | data
        · rfl
        · dsimp only
          split
          · rfl
          · rfl

/-- When the coroutine ran, `refresh_models` returns exactly the list the
fetch returned (the empty-list indexing branch is unreachable). -/
theorem refresh_ran_fst (st : CompState) (out : HttpOutcome) :
    (refresh_models st (RunOutcome.ran out)).1 = (fetch_models st out).1 := by
  unfold refresh_models
  dsimp only
  split
  · split
    · next heq => exact absurd heq (fetch_fst_ne_nil st out)
    · rfl
  · rfl

/-- `refresh_models` never returns the empty list. -/
theorem refresh_fst_ne_nil (st : CompState) (run : RunOutcome) :
    (refresh_models st run).1 ≠ [] := by
  rcases run with _ | out
  · simp [refresh_models, FALLBACK_MODELS]
  · rw [refresh_ran_fst]
    exact fetch_fst_ne_nil st out

/-- On every failing outcome the fetch returns the fallback list. -/
theorem fetch_failed_fst (st : CompState) (out : HttpOutcome)
    (h : listingFailed st (RunOutcome.ran out) = true) :
    (fetch_models st out).1 = FALLBACK_MODELS := by
  rcases out with _ | ⟨status, body⟩
  · unfold fetch_models
    split
    · rfl
    · rfl
  · unfold fetch_models
    unfold listingFailed at h
    by_cases hg : (!truthyOpt st.dial_api_host || !truthyOpt st.dial_api_key) = true
    · rw [if_pos hg]
    · rw [if_neg hg]
      dsimp only
      simp only [hg, Bool.false_or] at h
      by_cases hs : status ≠ 200
      · rw [if_pos hs]
      · rw [if_neg hs]
        rw [if_neg hs] at h
        rcases body with _ | data
        · rfl
        · dsimp only at h ⊢
          rw [List.isEmpty_iff] at h
          rw [h]

/-- The comprehension of line 190 computes exactly the ids that are present
and non-empty, in order. -/
theorem extractIds_eq_specIds (entries : List ModelEntry) :
    extractIds entries = specIds entries := by
  induction entries with
  | nil => rfl
  | cons e rest ih =>
    rcases e with ⟨id⟩
    rcases id with _ | s
    · simpa [extractIds, specIds, List.filterMap_cons, List.filter_cons] using ih
    · by_cases hs : s = ""
      · subst hs
        simpa [extractIds, specIds, List.filterMap_cons, List.filter_cons] using ih
      · simpa [extractIds, specIds, List.filterMap_cons, List.filter_cons, hs] using ih

/-- C1: the model-listing path run by the coordinator is a total function of
the state and the outcome oracle - so no exception ever reaches its caller -
and on every failing outcome (the asyncio runner raising, the GET raising at
any step, missing or empty credentials, a non-200 status, a malformed body,
an empty extracted id list) it returns the fallback list; the returned list is
never empty. -/
theorem listing_total_and_fallback_on_failure :
    ∀ (st : CompState) (run : RunOutcome),
      (listingFailed st run = true →
        (refresh_models st run).1 = FALLBACK_MODELS) ∧
      (refresh_models st run).1 ≠ [] := by
  intro st run
  refine ⟨?_, refresh_fst_ne_nil st run⟩
  intro h
  rcases run with _ | out
  · rfl
  · rw [refresh_ran_fst]
    exact fetch_failed_fst st out h

/-- C2: with the host absent or empty, or the key absent or empty, the fetch
returns exactly the fallback list, leaves the state untouched, and builds no
request at all. -/
theorem fetch_missing_creds_fallback_no_request :
    ∀ (st : CompState) (out : HttpOutcome),
      (st.dial_api_host = none ∨ st.dial_api_host = some "" ∨
       st.dial_api_key = none ∨ st.dial_api_key = some "") →
      fetch_models st out = (FALLBACK_MODELS, st, none) := by
  intro st out h
  have hg : (!truthyOpt st.dial_api_host || !truthyOpt st.dial_api_key) = true := by
    rcases h with h | h | h | h <;> simp [h, truthyOpt]
  unfold fetch_models
  rw [if_pos hg]

/-- Witness for C2 at a state with no host attribute. -/
theorem fetch_missing_creds_witness :
    fetch_models stC2 HttpOutcome.exn = (FALLBACK_MODELS, stC2, none) :=
  fetch_missing_creds_fallback_no_request stC2 HttpOutcome.exn (Or.inl rfl)

/-- Counterexample to C3 as stated: the entry of the body
`data := [entry with id ""]` has an id field, so the claim asks for the list
of one empty string, but the comprehension skips falsy ids, the extraction
comes out empty, and the fetch returns the fallback list instead. -/
theorem fetch_200_empty_id_counterexample :
    (fetch_models stC3 (HttpOutcome.response 200
      (FetchBody.obj (some [{ id := some "" }])))).1 = FALLBACK_MODELS ∧
    FALLBACK_MODELS ≠ [""] := by
  constructor
  · decide
  · decide

/-- C3 amended: for a 200 response whose body has a `data` array, the fetch
extracts the id of every entry whose id is present and non-empty, in order;
it returns that list when it is non-empty and the fallback list otherwise. -/
theorem fetch_200_extracts_nonempty_ids :
    ∀ (st : CompState) (data : Option (List ModelEntry)),
      truthyOpt st.dial_api_host = true →
      truthyOpt st.dial_api_key = true →
      (fetch_models st (HttpOutcome.response 200 (FetchBody.obj data))).1 =
        (if specIds (data.getD []) = [] then FALLBACK_MODELS
         else specIds (data.getD [])) := by
  intro st data hh hk
  have hg : ¬ ((!truthyOpt st.dial_api_host || !truthyOpt st.dial_api_key) = true) := by
    simp [hh, hk]
  unfold fetch_models
  rw [if_neg hg]
  dsimp only
  rw [if_neg (by decide : ¬ ((200 : Nat) ≠ 200))]
  rw [← extractIds_eq_specIds]
  split
  · next heq => rw [heq, if_pos rfl]
  · next m0 ms heq => rw [heq, if_neg (by simp)]

/-- Witness for C3 amended: the documented example body yields exactly the two
ids in order. -/
theorem fetch_200_extracts_nonempty_ids_witness :
    (fetch_models stC3 (HttpOutcome.response 200 (FetchBody.obj
      (some [{ id := some "gpt-4o" }, { id := some "gpt-4" }])))).1 =
      ["gpt-4o", "gpt-4"] := by
  rw [fetch_200_extracts_nonempty_ids stC3
    (some [{ id := some "gpt-4o" }, { id := some "gpt-4" }]) rfl rfl]
  decide

/-- C4: at a 200 response with an empty `data` array, `fetch_models` itself
returns the fallback and leaves the cached list untouched, but the enclosing
`refresh_models` then unconditionally overwrites the class cache with the
returned fallback list and sets the fetched flag - so the remembered
last-successful list `["claude-3"]` is NOT left unchanged by the whole
listing operation, against the claim and against the source comment on line
198 (return fallback but do not mark as fetched successfully). -/
theorem refresh_overwrites_cache_on_empty_data :
    (fetch_models stC4 (HttpOutcome.response 200 (FetchBody.obj (some [])))).1 =
      FALLBACK_MODELS ∧
    (fetch_models stC4 (HttpOutcome.response 200
      (FetchBody.obj (some [])))).2.1.available_models = ["claude-3"] ∧
    (refresh_models stC4 (RunOutcome.ran (HttpOutcome.response 200
      (FetchBody.obj (some []))))).1 = FALLBACK_MODELS ∧
    (refresh_models stC4 (RunOutcome.ran (HttpOutcome.response 200
      (FetchBody.obj (some []))))).2.available_models = FALLBACK_MODELS ∧
    (refresh_models stC4 (RunOutcome.ran (HttpOutcome.response 200
      (FetchBody.obj (some []))))).2.models_fetched = true ∧
    stC4.available_models ≠ FALLBACK_MODELS := by
  refine ⟨by decide, by decide, by decide, by decide, by decide, by decide⟩

/-- C5: every response with a status code other than 200 makes the fetch
return the fallback list. -/
theorem fetch_non200_fallback :
    ∀ (st : CompState) (status : Nat) (body : FetchBody),
      status ≠ 200 →
      (fetch_models st (HttpOutcome.response status body)).1 = FALLBACK_MODELS := by
  intro st status body h
  unfold fetch_models
  split
  · rfl
  · dsimp only
    rw [if_pos h]

/-- Witness for C5 at a 500 response. -/
theorem fetch_non200_fallback_witness :
    (fetch_models stC5 (HttpOutcome.response 500 FetchBody.malformed)).1 =
      FALLBACK_MODELS :=
  fetch_non200_fallback stC5 500 FetchBody.malformed (by decide)

/-- C6: after a refresh in which the coroutine ran, if the currently selected
model is absent from the returned list (or no model was selected) the
selection becomes the first entry of that list, and if it is present the
selection is kept. -/
theorem refresh_keeps_or_resets_selection :
    ∀ (st : CompState) (out : HttpOutcome),
      (selAbsent st.model_name (refresh_models st (RunOutcome.ran out)).1 = true →
        (refresh_models st (RunOutcome.ran out)).2.model_name =
          ((refresh_models st (RunOutcome.ran out)).1).head?) ∧
      (selAbsent st.model_name (refresh_models st (RunOutcome.ran out)).1 = false →
        (refresh_models st (RunOutcome.ran out)).2.model_name = st.model_name) := by
  intro st out
  have hmn := fetch_model_name_eq st out
  constructor
  · intro hsel
    rw [refresh_ran_fst] at hsel ⊢
    unfold refresh_models
    dsimp only
    rw [hmn, if_pos hsel]
    rcases hfetch : (fetch_models st out).1 with _ | ⟨m0, ms⟩
    · exact absurd hfetch (fetch_fst_ne_nil st out)
    · rfl
  · intro hsel
    rw [refresh_ran_fst] at hsel
    unfold refresh_models
    dsimp only
    rw [hmn, if_neg (by simp [hsel])]

/-- C7: whenever the constructor succeeds, the handle records the endpoint,
deployment, key and api version of the configuration, the same temperature,
the streaming flag (false when the attribute is absent), and the max-tokens
value, with an input of 0 translated to `none` (unbounded). -/
theorem build_model_records_config :
    ∀ (cfg : BuildConfig) (ctor : AzureParams → CtorResult),
      ctor (mkAzureParams cfg) = CtorResult.ok →
      ∃ h : AzureParams,
        build_model cfg ctor = Except.ok h ∧
        h.temperature = cfg.temperature ∧
        h.streaming = cfg.stream.getD false ∧
        h.max_tokens = (if cfg.max_tokens = 0 then none else some cfg.max_tokens) ∧
        h.azure_endpoint = cfg.dial_api_host ∧
        h.azure_deployment = cfg.model_name ∧
        h.api_key = cfg.dial_api_key ∧
        h.api_version = cfg.api_version := by
  intro cfg ctor hok
  refine ⟨mkAzureParams cfg, ?_, rfl, rfl, rfl, rfl, rfl, rfl, rfl⟩
  unfold build_model
  rw [hok]

/-- Witness for C7 at a concrete configuration with max-tokens 0. -/
theorem build_model_records_config_witness :
    ∃ h : AzureParams,
      build_model cfgC7 ctorOkC7 = Except.ok h ∧
      h.temperature = cfgC7.temperature ∧
      h.streaming = cfgC7.stream.getD false ∧
      h.max_tokens = (if cfgC7.max_tokens = 0 then none else some cfgC7.max_tokens) ∧
      h.azure_endpoint = cfgC7.dial_api_host ∧
      h.azure_deployment = cfgC7.model_name ∧
      h.api_key = cfgC7.dial_api_key ∧
      h.api_version = cfgC7.api_version :=
  build_model_records_config cfgC7 ctorOkC7 rfl

/-- C8: every constructor error is wrapped in the single generic message
`Could not initialize DIAL API client` carrying the original message, and
every error `build_model` ever returns arises that way - no other failure
escapes a build attempt. -/
theorem build_model_error_contract :
    ∀ (cfg : BuildConfig) (ctor : AzureParams → CtorResult),
      (∀ msg, ctor (mkAzureParams cfg) = CtorResult.err msg →
        build_model cfg ctor =
          Except.error ("Could not initialize DIAL API client: " ++ msg)) ∧
      (∀ e, build_model cfg ctor = Except.error e →
        ∃ msg, ctor (mkAzureParams cfg) = CtorResult.err msg ∧
          e = "Could not initialize DIAL API client: " ++ msg) := by
  intro cfg ctor
  constructor
  · intro msg hm
    unfold build_model
    rw [hm]
  · intro e he
    unfold build_model at he
    cases hc : ctor (mkAzureParams cfg) with
    | ok =>
      rw [hc] at he
      simp at he
    | err msg =>
      rw [hc] at he
      simp only [Except.error.injEq] at he
      exact ⟨msg, rfl, he.symm⟩

/-- C9: whenever the credentials are present and non-empty, the request the
fetch builds is a GET to the host with trailing slashes stripped followed by
`/openai/deployments?api-version=` and the api version, with the
`Content-Type` and `Api-Key` header pair and a 10 second timeout. -/
theorem fetch_request_shape :
    ∀ (st : CompState) (out : HttpOutcome),
      truthyOpt st.dial_api_host = true →
      truthyOpt st.dial_api_key = true →
      (fetch_models st out).2.2 =
        some { method := "GET"
             , url := rstripSlash (st.dial_api_host.getD "") ++
                 "/openai/deployments?api-version=" ++ st.api_version
             , headers := [("Content-Type", "application/json"),
                 ("Api-Key", st.dial_api_key.getD "")]
             , timeoutSecs := 10 } := by
  intro st out hh hk
  have hg : ¬ ((!truthyOpt st.dial_api_host || !truthyOpt st.dial_api_key) = true) := by
    simp [hh, hk]
  unfold fetch_models
  rw [if_neg hg]
  rcases out with _ | ⟨status, body⟩
  · rfl
  · dsimp only
    split
    · rfl
    · rcases body with _ | data
      · rfl
      · dsimp only
        split
        · rfl
        · rfl

/-- Witness for C9: a host with a trailing slash produces the fully resolved
deployments URL. -/
theorem fetch_request_shape_witness :
    (fetch_models stC9 HttpOutcome.exn).2.2 =
      some { method := "GET"
           , url := "https://dial.example.com/openai/deployments?api-version=2024-02-01"
           , headers := [("Content-Type", "application/json"), ("Api-Key", "secret")]
           , timeoutSecs := 10 } := by
  rw [fetch_request_shape stC9 HttpOutcome.exn rfl rfl]
  decide

/-- C10: the fallback list is the non-empty singleton of `gpt-4o`, and both
listing operations return a non-empty list on every input - so indexing the
first element of a returned list never hits an empty list. -/
theorem listing_results_nonempty :
    FALLBACK_MODELS = ["gpt-4o"] ∧
    (∀ (st : CompState) (out : HttpOutcome), (fetch_models st out).1 ≠ []) ∧
    (∀ (st : CompState) (run : RunOutcome), (refresh_models st run).1 ≠ []) :=
  ⟨rfl, fetch_fst_ne_nil, refresh_fst_ne_nil⟩

end DialLM
